import Mathlib

/-!
# core/server.go : the process lifecycle coordinator

A shallow embedding of `core/server.go`.  The file is glue code: everything it
does is a call into a collaborator (router, model layer, cache, logger, signal
and context packages) or a read or write of a `Server` field.  The embedding
therefore models

* Go pointers as `Option` of an object that carries its address (`none` is
  `nil`, two pointers are identical when the objects are equal),
* the results of the collaborators as an environment `Env`,
* execution as a state transformer over a `World` holding the `*Server` cell,
  a logical clock in nanoseconds and the time-stamped log of every call made,
* the ways a Go function can end as an `Outcome`: normal return, `os.Exit`
  (what the logger's `Fatal` does), a run-time panic (nil dereference), or
  waiting forever on a channel.
-/

namespace core

/-! ## Data model -/

/-- A Go `error` value that is not nil.  `context.DeadlineExceeded` is named
because `Echo.Shutdown` returns it when its context expires. -/
inductive GoError where
  | DeadlineExceeded
  | other (code : Nat)
  deriving DecidableEq

/-- The object behind a `*config.Configuration`: its address and the one field
read in this file. -/
structure Configuration where
  addr : Nat
  AssetsBuildDir : String
  deriving DecidableEq

/-- The object behind a `*echo.Echo` (router and HTTP server). -/
structure Echo where
  addr : Nat
  deriving DecidableEq

/-- The object behind a `*models.Model` (database connection). -/
structure Model where
  addr : Nat
  deriving DecidableEq

/-- The object behind a `*redis.Client` (cache connection). -/
structure Client where
  addr : Nat
  deriving DecidableEq

/-- The `Server` struct: four pointer fields, each nil (`none`) or an object. -/
structure Server where
  Echo : Option Echo
  config : Option Configuration
  db : Option Model
  cache : Option Client
  deriving DecidableEq

/-- A `context.Context` made by `context.WithTimeout`: the instant it expires. -/
structure Context where
  deadline : Nat
  deriving DecidableEq

/-- The constant `time.Second`, in nanoseconds (a `time.Duration` counts
nanoseconds). -/
def Second : Nat := 1000000000

/-- Every call this file makes into a collaborator, with its arguments and,
where the call has one, the value it returned. -/
inductive Event where
  | NewRouter (server : Server) (ret : Option Echo)
  | NewModel (ret : Option Model)
  | NewCache (config : Option Configuration) (ret : Option Client)
  | OpenWithConfig (db : Option Model) (config : Option Configuration) (ret : Option GoError)
  | Errorf (format : String) (err : GoError)
  | Start (e : Option Echo) (address : String) (ret : Option GoError)
  | Static (e : Option Echo) (pfx : String) (root : String)
  | Notify
  | Receive
  | WithTimeout (timeout : Nat) (ret : Context)
  | CacheClose (c : Client) (ret : Option GoError)
  | DBClose (d : Model) (ret : Option GoError)
  | Shutdown (e : Option Echo) (ctx : Context) (ret : Option GoError)
  | Fatal (e : Echo) (err : GoError)
  | Cancel (ctx : Context)
  deriving DecidableEq

/-- A log entry: an event and the clock reading when the call was made. -/
structure Stamped where
  time : Nat
  ev : Event
  deriving DecidableEq

/-- The state a run threads through: the `*Server` cell the methods receive,
the clock (nanoseconds) and the log of calls made so far, oldest first. -/
structure World where
  server : Server
  now : Nat
  trace : List Stamped
  deriving DecidableEq

/-- How a Go function call ends. -/
inductive Outcome (α : Type) where
  | returned (a : α)
  | exited (code : Nat)
  | panicked
  | blocked
  deriving DecidableEq

/-- What the collaborators answer.  None of them is defined in `server.go`
(`NewRouter`, `models` and `cache` are other files of the repository, the
rest are libraries), so each result is a parameter of the model and a theorem
quantified over `Env` holds for every behaviour of the collaborators.

* A call is taken to return; what it returns is free.  A method called on a
  nil receiver is still a call (Go allows it), so the receiver is passed as
  it is and the answer may depend on it.
* `NewRouter` receives the `*Server`, seen here as the fields it has at the
  call, and is taken not to assign them.
* `interrupt` is how long after `<-quit` starts the interrupt signal arrives,
  `none` when it never does.
* The `...Time` fields are how long each shutdown action takes; the
  statements of `server.go` themselves take no time. -/
structure Env where
  NewRouter : Server → Option Echo
  NewModel : Option Model
  NewCache : Option Configuration → Option Client
  OpenWithConfig : Option Model → Option Configuration → Option GoError
  Start : Option Echo → String → Option GoError
  interrupt : Option Nat
  cacheClose : Client → Option GoError
  cacheCloseTime : Nat
  dbClose : Model → Option GoError
  dbCloseTime : Nat
  Shutdown : Option Echo → Context → Option GoError
  ShutdownTime : Nat

/-! ## Execution -/

/-- A Go computation: from a world to an outcome and the world it leaves. -/
def Go (α : Type) : Type := World → Outcome α × World

/-- Sequencing: the rest of the function runs only after a normal return. -/
def Go.bind {α β : Type} (m : Go α) (f : α → Go β) : Go β := fun w =>
  match m w with
  | (.returned a, w1) => f a w1
  | (.exited n, w1) => (.exited n, w1)
  | (.panicked, w1) => (.panicked, w1)
  | (.blocked, w1) => (.blocked, w1)

instance : Monad Go where
  pure a := fun w => (.returned a, w)
  bind := Go.bind

/-- Append a call to the log, stamped with the current clock. -/
def emit (e : Event) : Go Unit := fun w =>
  (.returned (), { w with trace := w.trace ++ [⟨w.now, e⟩] })

/-- Let `d` nanoseconds pass. -/
def elapse (d : Nat) : Go Unit := fun w =>
  (.returned (), { w with now := w.now + d })

/-- Read the receiver `s` (the fields of the `*Server` cell). -/
def receiver : Go Server := fun w => (.returned w.server, w)

/-- Assign the fields of the `*Server` cell. -/
def assign (f : Server → Server) : Go Unit := fun w =>
  (.returned (), { w with server := f w.server })

/-- The outcome of running `m` from `w`. -/
def Go.outcome {α : Type} (m : Go α) (w : World) : Outcome α := (m w).1

/-- The world `m` leaves when run from `w`. -/
def Go.after {α : Type} (m : Go α) (w : World) : World := (m w).2

/-- The time-stamped calls `m` adds to the log when run from `w`. -/
def Go.log {α : Type} (m : Go α) (w : World) : List Stamped :=
  (m w).2.trace.drop w.trace.length

/-- The calls `m` makes when run from `w`, in order. -/
def Go.events {α : Type} (m : Go α) (w : World) : List Event :=
  (Go.log m w).map Stamped.ev

/-! ## Collaborator calls -/

/-- The call `s.Echo.Logger.Fatal(err)`: reading `Logger` through a nil `Echo` is a
nil dereference; otherwise the logger prints the error and calls
`os.Exit(1)`, so nothing after it runs, deferred calls included. -/
def LoggerFatal (err : GoError) : Go Unit := fun w =>
  match w.server.Echo with
  | none => (.panicked, w)
  | some e => (.exited 1, { w with trace := w.trace ++ [⟨w.now, .Fatal e err⟩] })

/-- The statement `<-quit` after `signal.Notify(quit, os.Interrupt)`: returns when
the interrupt arrives, never if it does not. -/
def receiveQuit (env : Env) : Go Unit := fun w =>
  match env.interrupt with
  | none => (.blocked, w)
  | some d => (.returned (), { w with now := w.now + d,
                                      trace := w.trace ++ [⟨w.now + d, .Receive⟩] })

/-- The call `context.WithTimeout(context.Background(), timeout)`: the deadline is
`time.Now().Add(timeout)`, read when the call is made. -/
def WithTimeout (timeout : Nat) : Go Context := fun w =>
  let ctx : Context := ⟨w.now + timeout⟩
  (.returned ctx, { w with trace := w.trace ++ [⟨w.now, .WithTimeout timeout ctx⟩] })

/-- The statement `defer cancel()`: `cancel` runs when the body returns or panics,
not when the process exits or hangs. -/
def deferCancel {α : Type} (ctx : Context) (body : Go α) : Go α := fun w =>
  match body w with
  | (.returned a, w1) =>
      (.returned a, { w1 with trace := w1.trace ++ [⟨w1.now, .Cancel ctx⟩] })
  | (.panicked, w1) =>
      (.panicked, { w1 with trace := w1.trace ++ [⟨w1.now, .Cancel ctx⟩] })
  | (.exited n, w1) => (.exited n, w1)
  | (.blocked, w1) => (.blocked, w1)

/-! ## server.go -/

/-- The function `NewServer`, statement by statement. -/
def NewServer (env : Env) (config : Option Configuration) : Go (Option Server) := do
  assign (fun _ => ⟨none, none, none, none⟩)
  assign (fun s => { s with config := config })
  let shell ← receiver
  let e := env.NewRouter shell
  emit (.NewRouter shell e)
  assign (fun s => { s with Echo := e })
  let m := env.NewModel
  emit (.NewModel m)
  assign (fun s => { s with db := m })
  let c := env.NewCache config
  emit (.NewCache config c)
  assign (fun s => { s with cache := c })
  let db := (← receiver).db
  let err := env.OpenWithConfig db config
  emit (.OpenWithConfig db config err)
  match err with
  | some e => emit (.Errorf "gorm: could not connect to db %q" e)
  | none => pure ()
  let server ← receiver
  return some server

/-- The method `GetDB`. -/
def GetDB : Go (Option Model) := do
  let s ← receiver
  return s.db

/-- The method `GetCache`. -/
def GetCache : Go (Option Client) := do
  let s ← receiver
  return s.cache

/-- The method `GetConfig`. -/
def GetConfig : Go (Option Configuration) := do
  let s ← receiver
  return s.config

/-- The method `Start`. -/
def Start (env : Env) (address : String) : Go (Option GoError) := do
  let s ← receiver
  let r := env.Start s.Echo address
  emit (.Start s.Echo address r)
  return r

/-- The method `ServeStaticFiles`: reading `AssetsBuildDir` through a nil `config` is
a nil dereference. -/
def ServeStaticFiles : Go Unit := do
  let s ← receiver
  match s.config with
  | none => fun w => (.panicked, w)
  | some c => emit (.Static s.Echo "/" c.AssetsBuildDir)

/-- The method `GracefulShutdown`, statement by statement. -/
def GracefulShutdown (env : Env) : Go Unit := do
  emit .Notify
  receiveQuit env
  let ctx ← WithTimeout (5 * Second)
  deferCancel ctx do
    -- close cache
    match (← receiver).cache with
    | some c =>
        let cErr := env.cacheClose c
        emit (.CacheClose c cErr)
        elapse env.cacheCloseTime
        match cErr with
        | some e => LoggerFatal e
        | none => pure ()
    | none => pure ()
    -- close database connection
    match (← receiver).db with
    | some d =>
        let dErr := env.dbClose d
        emit (.DBClose d dErr)
        elapse env.dbCloseTime
        match dErr with
        | some e => LoggerFatal e
        | none => pure ()
    | none => pure ()
    -- shutdown http server
    let s ← receiver
    let err := env.Shutdown s.Echo ctx
    emit (.Shutdown s.Echo ctx err)
    elapse env.ShutdownTime
    match err with
    | some e => LoggerFatal e
    | none => pure ()

/-! ## Reading the log -/

/-- The three shutdown actions of `GracefulShutdown`, with the handle acted on. -/
inductive Action where
  | cacheClose (c : Client)
  | dbClose (d : Model)
  | httpShutdown (e : Option Echo)
  deriving DecidableEq

/-- The shutdown action a logged call is, if it is one. -/
def Event.action : Event → Option Action
  | .CacheClose c _ => some (.cacheClose c)
  | .DBClose d _ => some (.dbClose d)
  | .Shutdown e _ _ => some (.httpShutdown e)
  | _ => none

/-- The error a logged shutdown action returned, if it returned one. -/
def Event.actionError : Event → Option GoError
  | .CacheClose _ r => r
  | .DBClose _ r => r
  | .Shutdown _ _ r => r
  | _ => none

/-- The error a logged fatal-log call carries. -/
def Event.fatal : Event → Option GoError
  | .Fatal _ err => some err
  | _ => none

/-- Whether a logged call builds, opens or starts a resource. -/
def Event.opens : Event → Bool
  | .NewRouter _ _ => true
  | .NewModel _ => true
  | .NewCache _ _ => true
  | .OpenWithConfig _ _ _ => true
  | .Start _ _ _ => true
  | _ => false

/-- The shutdown actions in a list of calls, in order. -/
def actions (tr : List Event) : List Action := tr.filterMap Event.action

/-- The errors returned by the shutdown actions in a list of calls, in order. -/
def actionErrors (tr : List Event) : List GoError := tr.filterMap Event.actionError

/-- The errors passed to the fatal log in a list of calls, in order. -/
def fatals (tr : List Event) : List GoError := tr.filterMap Event.fatal

/-- The contexts handed to `Echo.Shutdown` in a list of calls. -/
def shutdownContexts (tr : List Event) : List Context :=
  tr.filterMap fun
    | .Shutdown _ ctx _ => some ctx
    | _ => none

/-- Whether the log holds a call of `OpenWithConfig` on the handle `m` that
returned nil, that is, whether `m` was successfully opened. -/
def openedOK (tr : List Event) (m : Model) : Bool :=
  tr.any fun
    | .OpenWithConfig (some m1) _ none => decide (m1 = m)
    | _ => false

/-- The construction steps of `NewServer`. -/
inductive Step where
  | router
  | model
  | cache
  | dbOpen
  deriving DecidableEq

/-- The construction step a logged call is, if it is one. -/
def Event.step : Event → Option Step
  | .NewRouter _ _ => some .router
  | .NewModel _ => some .model
  | .NewCache _ _ => some .cache
  | .OpenWithConfig _ _ _ => some .dbOpen
  | _ => none

/-- The construction steps in a list of calls, in order. -/
def steps (tr : List Event) : List Step := tr.filterMap Event.step

/-! ## Concrete inputs -/

/-- A configuration object. -/
def cfg0 : Configuration := ⟨100, "public/build"⟩

/-- Collaborators that all succeed; the interrupt arrives after 10 ns and the
three shutdown actions take 4, 6 and 8 ns. -/
def envOK : Env where
  NewRouter := fun _ => some ⟨1⟩
  NewModel := some ⟨2⟩
  NewCache := fun _ => some ⟨3⟩
  OpenWithConfig := fun _ _ => none
  Start := fun _ _ => none
  interrupt := some 10
  cacheClose := fun _ => none
  cacheCloseTime := 4
  dbClose := fun _ => none
  dbCloseTime := 6
  Shutdown := fun _ _ => none
  ShutdownTime := 8

/-- As `envOK`, but opening the database fails. -/
def envOpenFails : Env := { envOK with OpenWithConfig := fun _ _ => some (.other 7) }

/-- As `envOK`, but closing the cache fails. -/
def envCacheFails : Env := { envOK with cacheClose := fun _ => some (.other 5) }

/-- As `envOK`, but closing the database fails. -/
def envDBFails : Env := { envOK with dbClose := fun _ => some (.other 9) }

/-- As `envOK`, but the HTTP shutdown runs out of time. -/
def envTimeout : Env := { envOK with Shutdown := fun _ _ => some .DeadlineExceeded }

/-- The world before anything has run. -/
def w0 : World := ⟨⟨none, none, none, none⟩, 0, []⟩

/-- The world after `NewServer` has run with collaborators that succeed. -/
def w1 : World := Go.after (NewServer envOK (some cfg0)) w0

/-- As `envOK`, but the interrupt never arrives. -/
def envNoSignal : Env := { envOK with interrupt := none }

/-- A world whose server has a configuration, a database and a cache but a nil
`Echo`. -/
def wNilEcho : World := ⟨⟨none, some cfg0, some ⟨2⟩, some ⟨3⟩⟩, 0, []⟩

/-! ## GracefulShutdown -/

/-- C1. Once the interrupt has been received and no shutdown action that runs
returns an error, the shutdown actions `GracefulShutdown` performs are exactly:
the cache close when `s.cache` is not nil, then the database close when `s.db`
is not nil, then the HTTP shutdown; each at most once, the HTTP shutdown
always; and `GracefulShutdown` returns. -/
theorem GracefulShutdown_action_order (env : Env) (w : World) (d : Nat)
    (hsig : env.interrupt = some d)
    (hok : actionErrors (Go.events (GracefulShutdown env) w) = []) :
    actions (Go.events (GracefulShutdown env) w)
        = w.server.cache.toList.map Action.cacheClose
          ++ w.server.db.toList.map Action.dbClose
          ++ [Action.httpShutdown w.server.Echo]
      ∧ Go.outcome (GracefulShutdown env) w = .returned () := by
  rcases w with ⟨⟨e, cf, db, ca⟩, now, tr⟩
  revert hok
  rcases ca with _ | ca <;> rcases db with _ | db <;> rcases e with _ | e <;>
    (try cases hc : env.cacheClose ca) <;> (try cases hd : env.dbClose db) <;>
    (try cases hs1 : env.Shutdown none ⟨now + d + 5 * Second⟩) <;>
    (try cases hs2 : env.Shutdown (some e) ⟨now + d + 5 * Second⟩) <;>
    simp [Go.events, Go.log, Go.outcome, GracefulShutdown, bind, Go.bind, emit, receiveQuit,
      hsig, WithTimeout, deferCancel, receiver, pure, elapse, LoggerFatal, actions,
      actionErrors, Event.action, Event.actionError, *]

/-- C1, on a concrete run: a server with cache, database and router, all three
shutdown actions succeeding. -/
theorem GracefulShutdown_action_order_witness :
    actions (Go.events (GracefulShutdown envOK) w1)
        = [Action.cacheClose ⟨3⟩, Action.dbClose ⟨2⟩, Action.httpShutdown (some ⟨1⟩)]
      ∧ Go.outcome (GracefulShutdown envOK) w1 = .returned () :=
  GracefulShutdown_action_order envOK w1 10 rfl (by decide)

/-- C2. After the interrupt, `GracefulShutdown` stops at the first shutdown action
that returns an error.  If the cache close returns an error, the cache close
is the only shutdown action made (no database close, no HTTP shutdown) and
the call does not return.  If the cache close is skipped or succeeds and the
database close returns an error, the shutdown actions made are the cache
close (when there is a cache) and the database close, once each, with no HTTP
shutdown, and the call does not return.  In no run does `GracefulShutdown`
build, open or start anything. -/
theorem GracefulShutdown_fail_fast (env : Env) (w : World) (d : Nat)
    (hsig : env.interrupt = some d) :
    (∀ c err, w.server.cache = some c → env.cacheClose c = some err →
        actions (Go.events (GracefulShutdown env) w) = [Action.cacheClose c]
        ∧ Go.outcome (GracefulShutdown env) w ≠ .returned ())
    ∧ (∀ m err, (∀ c, w.server.cache = some c → env.cacheClose c = none) →
        w.server.db = some m → env.dbClose m = some err →
        actions (Go.events (GracefulShutdown env) w)
            = w.server.cache.toList.map Action.cacheClose ++ [Action.dbClose m]
        ∧ Go.outcome (GracefulShutdown env) w ≠ .returned ())
    ∧ (∀ x ∈ Go.events (GracefulShutdown env) w, x.opens = false) := by
  rcases w with ⟨⟨e, cf, db, ca⟩, now, tr⟩
  refine ⟨?_, ?_, ?_⟩
  · intro c err hc herr
    simp only at hc
    subst hc
    rcases db with _ | db <;> rcases e with _ | e <;>
      simp [Go.events, Go.log, Go.outcome, GracefulShutdown, bind, Go.bind, emit, receiveQuit,
        hsig, WithTimeout, deferCancel, receiver, pure, elapse, LoggerFatal, actions,
        Event.action, herr]
  · intro m err hcache hdb herr
    simp only at hdb hcache
    subst hdb
    rcases ca with _ | ca <;> rcases e with _ | e <;>
      (try have hc := hcache ca rfl) <;>
      simp [Go.events, Go.log, Go.outcome, GracefulShutdown, bind, Go.bind, emit, receiveQuit,
        hsig, WithTimeout, deferCancel, receiver, pure, elapse, LoggerFatal, actions,
        Event.action, herr, *]
  · rcases ca with _ | ca <;> rcases db with _ | db <;> rcases e with _ | e <;>
      (try cases hc : env.cacheClose ca) <;> (try cases hd : env.dbClose db) <;>
      (try cases hs1 : env.Shutdown none ⟨now + d + 5 * Second⟩) <;>
      (try cases hs2 : env.Shutdown (some e) ⟨now + d + 5 * Second⟩) <;>
      simp [Go.events, Go.log, Go.outcome, GracefulShutdown, bind, Go.bind, emit, receiveQuit,
        hsig, WithTimeout, deferCancel, receiver, pure, elapse, LoggerFatal, *] <;>
      simp [Event.opens]

/-- C2, on two concrete runs: the cache close fails; the cache close succeeds
and the database close fails. -/
theorem GracefulShutdown_fail_fast_witness :
    (actions (Go.events (GracefulShutdown envCacheFails) w1) = [Action.cacheClose ⟨3⟩]
      ∧ Go.outcome (GracefulShutdown envCacheFails) w1 ≠ .returned ())
    ∧ (actions (Go.events (GracefulShutdown envDBFails) w1)
          = [Action.cacheClose ⟨3⟩, Action.dbClose ⟨2⟩]
      ∧ Go.outcome (GracefulShutdown envDBFails) w1 ≠ .returned ()) :=
  ⟨(GracefulShutdown_fail_fast envCacheFails w1 10 rfl).1 ⟨3⟩ (.other 5) rfl rfl,
   (GracefulShutdown_fail_fast envDBFails w1 10 rfl).2.1 ⟨2⟩ (.other 9)
      (fun _ _ => rfl) rfl rfl⟩

/-- C3, as stated, fails.  On a server whose `Echo` is nil the cache close runs and
returns an error, yet no fatal log is issued: reading `s.Echo.Logger` is a
nil dereference and the run ends in a panic.  And when the interrupt never
arrives, no action runs, so none returns an error, yet `GracefulShutdown`
does not return. -/
theorem GracefulShutdown_nil_echo_no_fatal :
    (actionErrors (Go.events (GracefulShutdown envCacheFails) wNilEcho) = [GoError.other 5]
      ∧ fatals (Go.events (GracefulShutdown envCacheFails) wNilEcho) = []
      ∧ Go.outcome (GracefulShutdown envCacheFails) wNilEcho = .panicked)
    ∧ (actionErrors (Go.events (GracefulShutdown envNoSignal) w1) = []
      ∧ Go.outcome (GracefulShutdown envNoSignal) w1 = .blocked) := by
  decide

/-- C3, amended. Whatever the shutdown actions return, at most one action that ran
returned an error.  For a server whose `Echo` is not nil (the fatal log is
the logger of `s.Echo`): the errors passed to the fatal log are exactly the
errors returned by the shutdown actions that ran, so a fatal log is issued if
and only if an action that ran returned an error (a deadline-exceeded error
of the HTTP shutdown included), once, with that error; the fatal log is the
last call made; and the process exits with status 1 if and only if an action
returned an error.  For a server whose `Echo` is nil no fatal log is issued,
and once the interrupt has been received the run panics if and only if an
action returned an error.  For every server, once the interrupt has been
received, `GracefulShutdown` returns if and only if no action that ran
returned an error. -/
theorem GracefulShutdown_fatal_iff_error (env : Env) (w : World) :
    (actionErrors (Go.events (GracefulShutdown env) w)).length ≤ 1
    ∧ (∀ e, w.server.Echo = some e →
        fatals (Go.events (GracefulShutdown env) w)
            = actionErrors (Go.events (GracefulShutdown env) w)
        ∧ (∀ err ∈ fatals (Go.events (GracefulShutdown env) w),
            (Go.events (GracefulShutdown env) w).getLast? = some (.Fatal e err))
        ∧ (Go.outcome (GracefulShutdown env) w = .exited 1
            ↔ actionErrors (Go.events (GracefulShutdown env) w) ≠ []))
    ∧ (w.server.Echo = none →
        fatals (Go.events (GracefulShutdown env) w) = []
        ∧ (∀ d, env.interrupt = some d →
            (Go.outcome (GracefulShutdown env) w = .panicked
              ↔ actionErrors (Go.events (GracefulShutdown env) w) ≠ [])))
    ∧ (∀ d, env.interrupt = some d →
        (Go.outcome (GracefulShutdown env) w = .returned ()
          ↔ actionErrors (Go.events (GracefulShutdown env) w) = [])) := by
  rcases w with ⟨⟨e, cf, db, ca⟩, now, tr⟩
  cases hsig : env.interrupt with
  | none =>
    simp [Go.events, Go.log, Go.outcome, GracefulShutdown, bind, Go.bind, emit, receiveQuit,
      hsig, fatals, actionErrors, Event.fatal, Event.actionError]
  | some d =>
    rcases ca with _ | ca <;> rcases db with _ | db <;> rcases e with _ | e <;>
      (try cases hc : env.cacheClose ca) <;> (try cases hd : env.dbClose db) <;>
      (try cases hs1 : env.Shutdown none ⟨now + d + 5 * Second⟩) <;>
      (try cases hs2 : env.Shutdown (some e) ⟨now + d + 5 * Second⟩) <;>
      simp [Go.events, Go.log, Go.outcome, GracefulShutdown, bind, Go.bind, emit, receiveQuit,
        hsig, WithTimeout, deferCancel, receiver, pure, elapse, LoggerFatal, fatals,
        actionErrors, Event.fatal, Event.actionError, *]

/-- C3 amended, on a concrete run: the HTTP shutdown returns the
deadline-exceeded error, which is the one error passed to the fatal log. -/
theorem GracefulShutdown_fatal_iff_error_witness :
    fatals (Go.events (GracefulShutdown envTimeout) w1) = [GoError.DeadlineExceeded]
    ∧ actionErrors (Go.events (GracefulShutdown envTimeout) w1) = [GoError.DeadlineExceeded]
    ∧ Go.outcome (GracefulShutdown envTimeout) w1 = .exited 1 :=
  have h := (GracefulShutdown_fatal_iff_error envTimeout w1).2.1 ⟨1⟩ rfl
  ⟨h.1.trans (by decide), by decide, h.2.2.mpr (by decide)⟩

/-- C5. When the interrupt has been received and every shutdown action
succeeds: the first three calls are `signal.Notify`, the receive from `quit`
and `context.WithTimeout` with a timeout of `5 * time.Second`, which is
5000000000 ns, made at the instant the receive completes, so no shutdown
action precedes it; the one context handed to `Echo.Shutdown` is the context
made there, whose deadline is the receive time plus 5 s; and `Echo.Shutdown`
is called only after the time the cache and database closes took. -/
theorem GracefulShutdown_deadline (env : Env) (w : World) (d : Nat)
    (hsig : env.interrupt = some d)
    (hok : actionErrors (Go.events (GracefulShutdown env) w) = []) :
    5 * Second = 5000000000
    ∧ (Go.log (GracefulShutdown env) w).take 3
        = [⟨w.now, .Notify⟩, ⟨w.now + d, .Receive⟩,
           ⟨w.now + d, .WithTimeout (5 * Second) ⟨w.now + d + 5 * Second⟩⟩]
    ∧ actions ((Go.events (GracefulShutdown env) w).take 3) = []
    ∧ shutdownContexts (Go.events (GracefulShutdown env) w) = [⟨w.now + d + 5 * Second⟩]
    ∧ (⟨w.now + d + (if w.server.cache.isSome then env.cacheCloseTime else 0)
            + (if w.server.db.isSome then env.dbCloseTime else 0),
          .Shutdown w.server.Echo ⟨w.now + d + 5 * Second⟩ none⟩ : Stamped)
        ∈ Go.log (GracefulShutdown env) w := by
  rcases w with ⟨⟨e, cf, db, ca⟩, now, tr⟩
  refine ⟨by decide, ?_⟩
  revert hok
  rcases ca with _ | ca <;> rcases db with _ | db <;> rcases e with _ | e <;>
    (try cases hc : env.cacheClose ca) <;> (try cases hd : env.dbClose db) <;>
    (try cases hs1 : env.Shutdown none ⟨now + d + 5 * Second⟩) <;>
    (try cases hs2 : env.Shutdown (some e) ⟨now + d + 5 * Second⟩) <;>
    simp [Go.events, Go.log, Go.outcome, GracefulShutdown, bind, Go.bind, emit, receiveQuit,
      hsig, WithTimeout, deferCancel, receiver, pure, elapse, LoggerFatal, actions,
      actionErrors, shutdownContexts, Event.action, Event.actionError, *]

/-- C5, on a concrete run: the interrupt is received at 10 ns, the closes take
4 and 6 ns, `Echo.Shutdown` starts at 20 ns with the deadline 5000000010 ns. -/
theorem GracefulShutdown_deadline_witness :
    shutdownContexts (Go.events (GracefulShutdown envOK) w1) = [⟨5000000010⟩]
    ∧ (⟨20, .Shutdown (some ⟨1⟩) ⟨5000000010⟩ none⟩ : Stamped)
        ∈ Go.log (GracefulShutdown envOK) w1 :=
  have h := GracefulShutdown_deadline envOK w1 10 rfl (by decide)
  ⟨h.2.2.2.1, h.2.2.2.2⟩

/-! ## NewServer, the accessors and ServeStaticFiles -/

/-- C4. For every configuration pointer `config`, `NewServer(config)` returns the
server it built, on which `GetConfig()` is `config` itself, `GetDB()` is the
object `models.NewModel` returned during construction and `GetCache()` is the
client `cache.NewCache(config)` returned; and from every world each of
`GetConfig`, `GetDB`, `GetCache` returns the field of that name and leaves
the world (server fields, clock, log) as it was. -/
theorem NewServer_accessors (env : Env) (config : Option Configuration) (w : World) :
    Go.outcome (NewServer env config) w
        = .returned (some (Go.after (NewServer env config) w).server)
    ∧ GetConfig (Go.after (NewServer env config) w)
        = (.returned config, Go.after (NewServer env config) w)
    ∧ GetDB (Go.after (NewServer env config) w)
        = (.returned env.NewModel, Go.after (NewServer env config) w)
    ∧ Event.NewModel env.NewModel ∈ Go.events (NewServer env config) w
    ∧ GetCache (Go.after (NewServer env config) w)
        = (.returned (env.NewCache config), Go.after (NewServer env config) w)
    ∧ Event.NewCache config (env.NewCache config) ∈ Go.events (NewServer env config) w
    ∧ (∀ v : World, GetConfig v = (.returned v.server.config, v)
        ∧ GetDB v = (.returned v.server.db, v)
        ∧ GetCache v = (.returned v.server.cache, v)) := by
  cases h : env.OpenWithConfig env.NewModel config <;>
    simp [Go.events, Go.log, Go.outcome, Go.after, NewServer, GetConfig, GetDB, GetCache,
      bind, Go.bind, emit, assign, receiver, pure, h]

/-- C6. If `OpenWithConfig` returns an error during construction, `NewServer`
still returns a server (not nil): its `Echo` is what the router builder
returned, and the returned server and the server cell are the same as when
the open succeeds with all other collaborators unchanged; the error is
passed to `log.Errorf`, which is the last call made, and the function
returns normally. -/
theorem NewServer_open_error (env : Env) (config : Option Configuration) (w : World)
    (err : GoError) (h : env.OpenWithConfig env.NewModel config = some err) :
    Go.outcome (NewServer env config) w
        = .returned (some ⟨env.NewRouter ⟨none, config, none, none⟩, config,
                           env.NewModel, env.NewCache config⟩)
    ∧ Event.NewRouter ⟨none, config, none, none⟩ (env.NewRouter ⟨none, config, none, none⟩)
        ∈ Go.events (NewServer env config) w
    ∧ Go.outcome (NewServer env config) w
        = Go.outcome (NewServer { env with OpenWithConfig := fun _ _ => none } config) w
    ∧ (Go.after (NewServer env config) w).server
        = (Go.after (NewServer { env with OpenWithConfig := fun _ _ => none } config) w).server
    ∧ (Go.events (NewServer env config) w).getLast?
        = some (.Errorf "gorm: could not connect to db %q" err) := by
  simp [Go.events, Go.log, Go.outcome, Go.after, NewServer, bind, Go.bind, emit, assign,
    receiver, pure, h]

/-- C6, on a concrete run in which the open fails. -/
theorem NewServer_open_error_witness :
    Go.outcome (NewServer envOpenFails (some cfg0)) w0
        = .returned (some ⟨some ⟨1⟩, some cfg0, some ⟨2⟩, some ⟨3⟩⟩)
    ∧ Go.outcome (NewServer envOpenFails (some cfg0)) w0
        = Go.outcome (NewServer envOK (some cfg0)) w0 :=
  have h := NewServer_open_error envOpenFails (some cfg0) w0 (.other 7) rfl
  ⟨h.1, h.2.2.1⟩

/-- C7, as stated, fails: with a database open that returns an error, `NewServer`
returns normally, the server it returns has the non-nil handle
`models.NewModel` made as its `db`, `GetDB()` on it returns that handle, and
no call of `OpenWithConfig` on that handle succeeded. -/
theorem NewServer_exposes_unopened_db :
    envOpenFails.OpenWithConfig (some ⟨2⟩) (some cfg0) = some (.other 7)
    ∧ Go.outcome (NewServer envOpenFails (some cfg0)) w0
        = .returned (some ⟨some ⟨1⟩, some cfg0, some ⟨2⟩, some ⟨3⟩⟩)
    ∧ (Go.after (NewServer envOpenFails (some cfg0)) w0).server
        = ⟨some ⟨1⟩, some cfg0, some ⟨2⟩, some ⟨3⟩⟩
    ∧ Go.outcome GetDB (Go.after (NewServer envOpenFails (some cfg0)) w0)
        = .returned (some ⟨2⟩)
    ∧ openedOK (Go.events (NewServer envOpenFails (some cfg0)) w0) ⟨2⟩ = false := by
  decide

/-- C7, amended. `NewServer` always returns normally, and returns the server it
built, whether or not the database open succeeded.  The `db` field of that
server, which `GetDB()` returns, is the handle `models.NewModel` returned:
`NewServer` never resets it to nil.  When that handle is not nil, it has
been opened successfully exactly when `OpenWithConfig` returned nil.  When
`OpenWithConfig` returned an error, the calls made are the four construction
calls followed by `log.Errorf` with that error and nothing else (the failure
is only logged), and a handle that is not nil is exposed by `GetDB()` all
the same, never successfully opened. -/
theorem NewServer_db_handle (env : Env) (config : Option Configuration) (w : World) :
    Go.outcome (NewServer env config) w
        = .returned (some (Go.after (NewServer env config) w).server)
    ∧ (Go.after (NewServer env config) w).server.db = env.NewModel
    ∧ GetDB (Go.after (NewServer env config) w)
        = (.returned env.NewModel, Go.after (NewServer env config) w)
    ∧ (∀ m, env.NewModel = some m →
        (openedOK (Go.events (NewServer env config) w) m = true
          ↔ env.OpenWithConfig (some m) config = none))
    ∧ (∀ err, env.OpenWithConfig env.NewModel config = some err →
        Go.events (NewServer env config) w
          = [.NewRouter ⟨none, config, none, none⟩ (env.NewRouter ⟨none, config, none, none⟩),
             .NewModel env.NewModel,
             .NewCache config (env.NewCache config),
             .OpenWithConfig env.NewModel config (some err),
             .Errorf "gorm: could not connect to db %q" err]
        ∧ (∀ m, env.NewModel = some m →
            Go.outcome GetDB (Go.after (NewServer env config) w) = .returned (some m)
            ∧ openedOK (Go.events (NewServer env config) w) m = false)) := by
  refine ⟨?_, ?_, ?_, ?_, ?_⟩
  · cases h : env.OpenWithConfig env.NewModel config <;>
      simp [Go.outcome, Go.after, NewServer, bind, Go.bind, emit, assign, receiver, pure, h]
  · cases h : env.OpenWithConfig env.NewModel config <;>
      simp [Go.after, NewServer, bind, Go.bind, emit, assign, receiver, pure, h]
  · cases h : env.OpenWithConfig env.NewModel config <;>
      simp [Go.after, NewServer, GetDB, bind, Go.bind, emit, assign, receiver, pure, h]
  · intro m hm
    cases h : env.OpenWithConfig (some m) config <;>
      simp [Go.events, Go.log, NewServer, bind, Go.bind, emit, assign,
        receiver, pure, h, hm, openedOK]
  · intro err h
    refine ⟨?_, ?_⟩
    · simp [Go.events, Go.log, NewServer, bind, Go.bind, emit, assign, receiver, pure, h]
    · intro m hm
      rw [hm] at h
      simp [Go.events, Go.log, Go.outcome, Go.after, NewServer, GetDB, bind, Go.bind, emit,
        assign, receiver, pure, h, hm, openedOK]

/-- C7 amended, on two concrete runs: the open succeeds and the handle has been
opened; the open fails and the handle is exposed unopened, the error only
logged. -/
theorem NewServer_db_handle_witness :
    openedOK (Go.events (NewServer envOK (some cfg0)) w0) ⟨2⟩ = true
    ∧ (Go.events (NewServer envOpenFails (some cfg0)) w0).getLast?
        = some (.Errorf "gorm: could not connect to db %q" (.other 7))
    ∧ Go.outcome GetDB (Go.after (NewServer envOpenFails (some cfg0)) w0)
        = .returned (some ⟨2⟩) :=
  ⟨((NewServer_db_handle envOK (some cfg0) w0).2.2.2.1 ⟨2⟩ rfl).mpr rfl,
   (congrArg List.getLast?
      ((NewServer_db_handle envOpenFails (some cfg0) w0).2.2.2.2 (.other 7) rfl).1).trans rfl,
   (((NewServer_db_handle envOpenFails (some cfg0) w0).2.2.2.2 (.other 7) rfl).2 ⟨2⟩ rfl).1⟩

/-- C8, as stated, fails: in a run of `NewServer` the cache client is built
before the database is opened, not after. -/
theorem NewServer_cache_before_open :
    steps (Go.events (NewServer envOK (some cfg0)) w0)
        = [Step.router, Step.model, Step.cache, Step.dbOpen]
    ∧ ¬ ((steps (Go.events (NewServer envOK (some cfg0)) w0)).indexOf Step.dbOpen
          < (steps (Go.events (NewServer envOK (some cfg0)) w0)).indexOf Step.cache) := by
  decide

/-- C8, amended. For every configuration, `NewServer` makes its construction calls in
this order: the router builder first (given the server with only `config`
set), then `models.NewModel`, then `cache.NewCache(config)`, and last
`OpenWithConfig(config)` on the model; the database open comes after the
cache client is built. -/
theorem NewServer_construction_order (env : Env) (config : Option Configuration)
    (w : World) :
    (Go.events (NewServer env config) w).take 4
        = [.NewRouter ⟨none, config, none, none⟩ (env.NewRouter ⟨none, config, none, none⟩),
           .NewModel env.NewModel,
           .NewCache config (env.NewCache config),
           .OpenWithConfig env.NewModel config (env.OpenWithConfig env.NewModel config)]
    ∧ steps (Go.events (NewServer env config) w)
        = [Step.router, Step.model, Step.cache, Step.dbOpen] := by
  cases h : env.OpenWithConfig env.NewModel config <;>
    simp [Go.events, Go.log, NewServer, bind, Go.bind, emit, assign, receiver, pure, h,
      steps, Event.step]

/-- C9, as stated, fails: on the zero-value server, whose `config` is nil,
`ServeStaticFiles` makes no call at all and ends in a nil-dereference
panic. -/
theorem ServeStaticFiles_nil_config :
    w0.server.config = none
    ∧ Go.events ServeStaticFiles w0 = []
    ∧ Go.outcome ServeStaticFiles w0 = .panicked := by
  decide

/-- C9, amended. From every world `ServeStaticFiles` leaves the `Echo`, `config`, `db`
and `cache` fields as they were and makes at most one call.  When `config` is
not nil (the method reads `s.config.AssetsBuildDir`), it makes exactly one
call, `Echo.Static("/", config.AssetsBuildDir)` on the server's router, and
returns no value; the world it leaves differs from the one it started in
only by that log entry.  When `config` is nil it makes no call and
panics. -/
theorem ServeStaticFiles_registers (w : World) :
    (Go.after ServeStaticFiles w).server = w.server
    ∧ (Go.events ServeStaticFiles w).length ≤ 1
    ∧ (∀ c, w.server.config = some c →
        Go.events ServeStaticFiles w = [.Static w.server.Echo "/" c.AssetsBuildDir]
        ∧ Go.outcome ServeStaticFiles w = .returned ()
        ∧ Go.after ServeStaticFiles w
            = { w with trace := w.trace
                  ++ [⟨w.now, .Static w.server.Echo "/" c.AssetsBuildDir⟩] })
    ∧ (w.server.config = none →
        Go.events ServeStaticFiles w = []
        ∧ Go.outcome ServeStaticFiles w = .panicked) := by
  rcases w with ⟨⟨e, cf, db, ca⟩, now, tr⟩
  rcases cf with _ | cf <;>
    simp [Go.events, Go.log, Go.outcome, Go.after, ServeStaticFiles, bind, Go.bind, emit,
      receiver]

/-- C9 amended, on the server built by a concrete run of `NewServer`. -/
theorem ServeStaticFiles_registers_witness :
    Go.events ServeStaticFiles w1 = [.Static (some ⟨1⟩) "/" "public/build"]
    ∧ Go.outcome ServeStaticFiles w1 = .returned ()
    ∧ (Go.after ServeStaticFiles w1).server = w1.server :=
  have h := ServeStaticFiles_registers w1
  ⟨(h.2.2.1 cfg0 rfl).1, (h.2.2.1 cfg0 rfl).2.1, h.1⟩

/-- C10. For every configuration, the first call `NewServer` makes is the router
builder, and the server it passes has `config` set and `Echo`, `db` and
`cache` nil, so on that server `GetDB()` and `GetCache()` return nil and
`GetConfig()` returns the configuration; `models.NewModel` and
`cache.NewCache`, which produce the handles, are called after the router
builder has returned, and the handles are in the server `NewServer` leaves. -/
theorem NewServer_router_sees_shell (env : Env) (config : Option Configuration)
    (w : World) :
    (Go.events (NewServer env config) w).head?
        = some (.NewRouter ⟨none, config, none, none⟩
                  (env.NewRouter ⟨none, config, none, none⟩))
    ∧ Go.outcome GetDB { w with server := ⟨none, config, none, none⟩ } = .returned none
    ∧ Go.outcome GetCache { w with server := ⟨none, config, none, none⟩ } = .returned none
    ∧ Go.outcome GetConfig { w with server := ⟨none, config, none, none⟩ } = .returned config
    ∧ Event.NewModel env.NewModel ∈ (Go.events (NewServer env config) w).tail
    ∧ Event.NewCache config (env.NewCache config) ∈ (Go.events (NewServer env config) w).tail
    ∧ (Go.after (NewServer env config) w).server.db = env.NewModel
    ∧ (Go.after (NewServer env config) w).server.cache = env.NewCache config := by
  cases h : env.OpenWithConfig env.NewModel config <;>
    simp [Go.events, Go.log, Go.outcome, Go.after, NewServer, GetConfig, GetDB, GetCache,
      bind, Go.bind, emit, assign, receiver, pure, h]

end core
